import Mathlib

/-!
Shallow embedding of the notebook
examples/third_party/financial_document_analysis_with_llamaindex.ipynb.

The notebook is a straight-line program: it instantiates an OpenAI client,
installs a global ServiceContext, loads two PDF files, builds one vector
index per document, derives one query engine per index, runs two simple
queries, composes the two engines into a SubQuestionQueryEngine and runs
two compare-and-contrast queries.

Every call into the external framework (PDF loading, retrieval plus LLM
completion, sub-question generation, answer synthesis) is modelled by a
field of a `World` parameter: the notebook contributes no logic of its own
beyond sequencing these calls, so the embedding threads an explicit state
(the global service context plus an event trace) through the sequence and
lets each external call either return a value or fail with an error that
the notebook never catches.
-/

namespace FinDoc

/-- A plain-text document page, as produced by the external PDF loader. -/
structure Document where
  text : String
  deriving DecidableEq, Repr

/-- The LLM client built by the notebook cell
OpenAI(temperature=0, model_name="gpt-3.5-turbo-instruct", max_tokens=-1). -/
structure OpenAI where
  temperature : Int
  model_name : String
  max_tokens : Int
  deriving DecidableEq, Repr

/-- The shared configuration object: ServiceContext.from_defaults(llm=llm). -/
structure ServiceContext where
  llm : OpenAI
  deriving DecidableEq, Repr

/-- ServiceContext.from_defaults(llm=llm). -/
def ServiceContext.from_defaults (llm : OpenAI) : ServiceContext := ⟨llm⟩

/-- An in-memory vector index over a list of documents, carrying the
service context in effect when it was built. -/
structure VectorStoreIndex where
  docs : List Document
  service_context : ServiceContext
  deriving DecidableEq, Repr

/-- A query engine over a vector index: index.as_query_engine(similarity_top_k=k). -/
structure QueryEngine where
  index : VectorStoreIndex
  similarity_top_k : Nat
  deriving DecidableEq, Repr

/-- ToolMetadata(name=..., description=...). -/
structure ToolMetadata where
  name : String
  description : String
  deriving DecidableEq, Repr

/-- QueryEngineTool(query_engine=..., metadata=...). -/
structure QueryEngineTool where
  query_engine : QueryEngine
  metadata : ToolMetadata
  deriving DecidableEq, Repr

/-- A sub-question produced by the external decomposition step: a target
tool name and the text of the sub-question. -/
structure SubQuestion where
  tool_name : String
  sub_question : String
  deriving DecidableEq, Repr

/-- SubQuestionQueryEngine.from_defaults(query_engine_tools=...), carrying
the service context in effect when it was composed. -/
structure SubQuestionQueryEngine where
  query_engine_tools : List QueryEngineTool
  service_context : ServiceContext
  deriving DecidableEq, Repr

/-- Failures raised by the external framework or API, which the notebook
never catches. -/
inductive Err where
  | fileNotFound (path : String)
  | apiError (msg : String)
  | malformedResponse (msg : String)
  | noServiceContext
  | unknownTool (tool_name : String)
  deriving DecidableEq, Repr

/-- The external world: each field models one kind of call into the
external framework or API.  Nothing in the notebook constrains these
functions, so every theorem about the notebook quantifies over them. -/
structure World where
  load : String → Except Err (List Document)
  embed : List Document → Except Err Unit
  complete : ServiceContext → List Document → Nat → String → Except Err String
  gen_sub_questions : List ToolMetadata → String → Except Err (List SubQuestion)
  synthesize : ServiceContext → String → List String → Except Err String

/-- One observable step performed by the notebook. -/
inductive Event where
  | instantiate_llm (llm : OpenAI)
  | set_global (ctx : ServiceContext)
  | load_files (input_files : List String)
  | build_index (index : VectorStoreIndex)
  | make_engine (engine : QueryEngine)
  | engine_query (engine : QueryEngine) (question : String)
  | compose_subquestion (tool_names : List String)
  | sub_query (tool_names : List String) (question : String)
  deriving DecidableEq, Repr

/-- The mutable state of the notebook process: the global default service
context (set by set_global_service_context) and the trace of steps taken. -/
structure NBState where
  global_service_context : Option ServiceContext
  trace : List Event
  deriving DecidableEq, Repr

/-- The notebook computation: explicit state passing with unhandled errors. -/
def NB (α : Type) : Type := NBState → Except Err (α × NBState)

def NB.pure (a : α) : NB α := fun s => .ok (a, s)

def NB.bind (x : NB α) (f : α → NB β) : NB β := fun s =>
  match x s with
  | .ok (a, s1) => f a s1
  | .error e => .error e

instance : Monad NB where
  pure := NB.pure
  bind := NB.bind

/-- Append one event to the trace. -/
def emit (ev : Event) : NB Unit := fun s =>
  .ok ((), { s with trace := s.trace ++ [ev] })

/-- Run an external call inside the notebook: its error, if any,
propagates unchanged. -/
def liftE (x : Except Err α) : NB α := fun s =>
  match x with
  | .ok a => .ok (a, s)
  | .error e => .error e

/-- OpenAI(temperature=..., model_name=..., max_tokens=...): instantiate
the LLM client, recording the instantiation in the trace. -/
def OpenAI.new (temperature : Int) (model_name : String) (max_tokens : Int) :
    NB OpenAI := fun s =>
  .ok (⟨temperature, model_name, max_tokens⟩,
    { s with trace := s.trace ++ [.instantiate_llm ⟨temperature, model_name, max_tokens⟩] })

/-- set_global_service_context(service_context=ctx). -/
def set_global_service_context (ctx : ServiceContext) : NB Unit := fun s =>
  .ok ((), { global_service_context := some ctx,
             trace := s.trace ++ [.set_global ctx] })

/-- SimpleDirectoryReader(input_files=...). -/
structure SimpleDirectoryReader where
  input_files : List String

/-- Read each input file through the external loader and concatenate the
resulting document lists, failing on the first loader error. -/
def loadFiles (w : World) : List String → Except Err (List Document)
  | [] => .ok []
  | p :: rest =>
    match w.load p with
    | .ok docs =>
      match loadFiles w rest with
      | .ok more => .ok (docs ++ more)
      | .error e => .error e
    | .error e => .error e

/-- reader.load_data(): load every input file of the reader. -/
def SimpleDirectoryReader.load_data (w : World) (r : SimpleDirectoryReader) :
    NB (List Document) := fun s =>
  match loadFiles w r.input_files with
  | .ok docs => .ok (docs, { s with trace := s.trace ++ [.load_files r.input_files] })
  | .error e => .error e

/-- VectorStoreIndex.from_documents(docs): build an index over the given
documents under the global default service context.  Building the index
computes vector embeddings through the external API, which can fail. -/
def VectorStoreIndex.from_documents (w : World) (documents : List Document) :
    NB VectorStoreIndex := fun s =>
  match s.global_service_context with
  | some ctx =>
    match w.embed documents with
    | .ok _ =>
      .ok (⟨documents, ctx⟩,
        { s with trace := s.trace ++ [.build_index ⟨documents, ctx⟩] })
    | .error e => .error e
  | none => .error .noServiceContext

/-- index.as_query_engine(similarity_top_k=k). -/
def VectorStoreIndex.as_query_engine (index : VectorStoreIndex)
    (similarity_top_k : Nat) : NB QueryEngine := fun s =>
  .ok (⟨index, similarity_top_k⟩,
    { s with trace := s.trace ++ [.make_engine ⟨index, similarity_top_k⟩] })

/-- await engine.aquery(q): retrieve the top-k chunks of the index of the
engine and complete an answer through the external LLM. -/
def QueryEngine.aquery (w : World) (e : QueryEngine) (q : String) :
    NB String := fun s =>
  match w.complete e.index.service_context e.index.docs e.similarity_top_k q with
  | .ok r => .ok (r, { s with trace := s.trace ++ [.engine_query e q] })
  | .error err => .error err

/-- SubQuestionQueryEngine.from_defaults(query_engine_tools=...): compose
the tools under the global default service context. -/
def SubQuestionQueryEngine.from_defaults (query_engine_tools : List QueryEngineTool) :
    NB SubQuestionQueryEngine := fun s =>
  match s.global_service_context with
  | some ctx =>
    .ok (⟨query_engine_tools, ctx⟩,
      { s with trace := s.trace ++
          [.compose_subquestion (query_engine_tools.map (fun t => t.metadata.name))] })
  | none => .error .noServiceContext

/-- Dispatch one generated sub-question to the tool it names and run it
on the query engine wrapped by that tool. -/
def runSubQuestion (w : World) (tools : List QueryEngineTool) (sq : SubQuestion) :
    NB String :=
  match tools.find? (fun t => t.metadata.name == sq.tool_name) with
  | some tool => tool.query_engine.aquery w sq.sub_question
  | none => fun _ => .error (.unknownTool sq.tool_name)

/-- Run the generated sub-questions in sequence, collecting the answers. -/
def runSubQuestions (w : World) (tools : List QueryEngineTool) :
    List SubQuestion → NB (List String)
  | [] => NB.pure []
  | sq :: rest => NB.bind (runSubQuestion w tools sq) (fun a =>
      NB.bind (runSubQuestions w tools rest) (fun as =>
        NB.pure (a :: as)))

/-- await s_engine.aquery(q): generate sub-questions over the tool
metadata, run each on the engine wrapped by the tool it names, and
synthesize the answers through the external LLM. -/
def SubQuestionQueryEngine.aquery (w : World) (e : SubQuestionQueryEngine)
    (q : String) : NB String :=
  NB.bind (liftE (w.gen_sub_questions (e.query_engine_tools.map (fun t => t.metadata)) q))
    (fun subqs =>
      NB.bind (emit (.sub_query (e.query_engine_tools.map (fun t => t.metadata.name)) q))
        (fun _ =>
          NB.bind (runSubQuestions w e.query_engine_tools subqs)
            (fun answers => liftE (w.synthesize e.service_context q answers))))

/-- Path of the first PDF loaded by the notebook. -/
def lyft_pdf : String := "../data/10k/lyft_2021.pdf"

/-- Path of the second PDF loaded by the notebook. -/
def uber_pdf : String := "../data/10k/uber_2021.pdf"

/-- First simple query of the notebook. -/
def q_lyft_revenue : String :=
  "What is the revenue of Lyft in 2021? Answer in millions with page reference"

/-- Second simple query of the notebook. -/
def q_uber_revenue : String :=
  "What is the revenue of Uber in 2021? Answer in millions, with page reference"

/-- First compare-and-contrast query of the notebook. -/
def q_compare_segments : String :=
  "Compare and contrast the customer segments and geographies that grew the fastest"

/-- Second compare-and-contrast query of the notebook. -/
def q_compare_growth : String :=
  "Compare revenue growth of Uber and Lyft from 2020 to 2021"

/-- Description of the lyft_10k tool. -/
def lyft_tool_description : String :=
  "Provides information about Lyft financials for year 2021"

/-- Description of the uber_10k tool. -/
def uber_tool_description : String :=
  "Provides information about Uber financials for year 2021"

/-- Every object the notebook binds to a variable, together with the four
query responses it prints. -/
structure NotebookResult where
  llm : OpenAI
  service_context : ServiceContext
  lyft_docs : List Document
  uber_docs : List Document
  lyft_index : VectorStoreIndex
  uber_index : VectorStoreIndex
  lyft_engine : QueryEngine
  uber_engine : QueryEngine
  query_engine_tools : List QueryEngineTool
  s_engine : SubQuestionQueryEngine
  lyft_response : String
  uber_response : String
  compare_response : String
  growth_response : String
  deriving DecidableEq, Repr

/-- The notebook, cell by cell, in execution order. -/
def notebook (w : World) : NB NotebookResult := do
  let llm ← OpenAI.new 0 "gpt-3.5-turbo-instruct" (-1)
  let service_context := ServiceContext.from_defaults llm
  set_global_service_context service_context
  let lyft_docs ← (SimpleDirectoryReader.mk [lyft_pdf]).load_data w
  let uber_docs ← (SimpleDirectoryReader.mk [uber_pdf]).load_data w
  let lyft_index ← VectorStoreIndex.from_documents w lyft_docs
  let uber_index ← VectorStoreIndex.from_documents w uber_docs
  let lyft_engine ← lyft_index.as_query_engine 3
  let uber_engine ← uber_index.as_query_engine 3
  let lyft_response ← lyft_engine.aquery w q_lyft_revenue
  let uber_response ← uber_engine.aquery w q_uber_revenue
  let query_engine_tools : List QueryEngineTool :=
    [⟨lyft_engine, ⟨"lyft_10k", lyft_tool_description⟩⟩,
     ⟨uber_engine, ⟨"uber_10k", uber_tool_description⟩⟩]
  let s_engine ← SubQuestionQueryEngine.from_defaults query_engine_tools
  let compare_response ← s_engine.aquery w q_compare_segments
  let growth_response ← s_engine.aquery w q_compare_growth
  NB.pure ⟨llm, service_context, lyft_docs, uber_docs, lyft_index, uber_index,
    lyft_engine, uber_engine, query_engine_tools, s_engine,
    lyft_response, uber_response, compare_response, growth_response⟩

/-- The initial state: no global service context, empty trace. -/
def initState : NBState := ⟨none, []⟩

/-- Run the notebook from its initial state. -/
def runNotebook (w : World) : Except Err (NotebookResult × NBState) :=
  notebook w initState

/-- The one LLM client configuration the notebook builds. -/
def llm0 : OpenAI := ⟨0, "gpt-3.5-turbo-instruct", -1⟩

/-- The one service context the notebook builds and installs globally. -/
def ctx0 : ServiceContext := ⟨llm0⟩

/-- The metadata names of the two tools, in composition order. -/
def tool_names0 : List String := ["lyft_10k", "uber_10k"]

/-- The trace of every notebook step up to and including the composition
of the sub-question engine, as a function of the loaded documents. -/
def mainTrace (res : NotebookResult) : List Event :=
  [.instantiate_llm llm0,
   .set_global ctx0,
   .load_files [lyft_pdf],
   .load_files [uber_pdf],
   .build_index ⟨res.lyft_docs, ctx0⟩,
   .build_index ⟨res.uber_docs, ctx0⟩,
   .make_engine ⟨⟨res.lyft_docs, ctx0⟩, 3⟩,
   .make_engine ⟨⟨res.uber_docs, ctx0⟩, 3⟩,
   .engine_query ⟨⟨res.lyft_docs, ctx0⟩, 3⟩ q_lyft_revenue,
   .engine_query ⟨⟨res.uber_docs, ctx0⟩, 3⟩ q_uber_revenue,
   .compose_subquestion tool_names0]

/-- An event that can be produced by running the sub-question engine of
the notebook: either the decomposition step itself or a sub-question
executed on the query engine wrapped by one of its two tools. -/
def subEvent (res : NotebookResult) (ev : Event) : Prop :=
  (∃ q, ev = .sub_query tool_names0 q) ∨
  (∃ t ∈ res.query_engine_tools, ∃ sq, ev = .engine_query t.query_engine sq)

/-- A small concrete external world, used to evaluate the notebook on
explicit inputs: one page per PDF, answers echoing the retrieved pages,
one sub-question per tool, synthesis by concatenation. -/
def demoWorld : World where
  load := fun p =>
    if p = lyft_pdf then .ok [⟨"lyft page"⟩]
    else if p = uber_pdf then .ok [⟨"uber page"⟩]
    else .error (.fileNotFound p)
  embed := fun _ => .ok ()
  complete := fun _ docs _ q =>
    .ok (String.intercalate (" ") (q :: docs.map (fun d => d.text)))
  gen_sub_questions := fun metas q =>
    .ok (metas.map (fun m => ⟨m.name, q⟩))
  synthesize := fun _ _ answers =>
    .ok (String.intercalate ("; ") answers)

/-- The documents the demo world returns for the Lyft PDF. -/
def demo_lyft_docs : List Document := [⟨"lyft page"⟩]

/-- The documents the demo world returns for the Uber PDF. -/
def demo_uber_docs : List Document := [⟨"uber page"⟩]

/-- The Lyft query engine that the notebook builds in the demo world. -/
def demo_lyft_engine : QueryEngine := ⟨⟨demo_lyft_docs, ctx0⟩, 3⟩

/-- The Uber query engine that the notebook builds in the demo world. -/
def demo_uber_engine : QueryEngine := ⟨⟨demo_uber_docs, ctx0⟩, 3⟩

/-- The tool list that the notebook builds in the demo world. -/
def demo_tools : List QueryEngineTool :=
  [⟨demo_lyft_engine, ⟨"lyft_10k", lyft_tool_description⟩⟩,
   ⟨demo_uber_engine, ⟨"uber_10k", uber_tool_description⟩⟩]

/-- The full result of running the notebook in the demo world. -/
def demoRes : NotebookResult :=
  ⟨llm0, ctx0, demo_lyft_docs, demo_uber_docs,
   ⟨demo_lyft_docs, ctx0⟩, ⟨demo_uber_docs, ctx0⟩,
   demo_lyft_engine, demo_uber_engine, demo_tools, ⟨demo_tools, ctx0⟩,
   "What is the revenue of Lyft in 2021? Answer in millions with page reference lyft page",
   "What is the revenue of Uber in 2021? Answer in millions, with page reference uber page",
   "Compare and contrast the customer segments and geographies that grew the fastest lyft page; Compare and contrast the customer segments and geographies that grew the fastest uber page",
   "Compare revenue growth of Uber and Lyft from 2020 to 2021 lyft page; Compare revenue growth of Uber and Lyft from 2020 to 2021 uber page"⟩

/-- Trace of the first sub-question query in the demo world. -/
def demoD3 : List Event :=
  [.sub_query tool_names0 q_compare_segments,
   .engine_query demo_lyft_engine q_compare_segments,
   .engine_query demo_uber_engine q_compare_segments]

/-- Trace of the second sub-question query in the demo world. -/
def demoD4 : List Event :=
  [.sub_query tool_names0 q_compare_growth,
   .engine_query demo_lyft_engine q_compare_growth,
   .engine_query demo_uber_engine q_compare_growth]

/-- Final state of the notebook in the demo world. -/
def demoState : NBState := ⟨some ctx0, mainTrace demoRes ++ demoD3 ++ demoD4⟩

/-- Running the notebook in the demo world produces exactly the expected
result and trace. -/
theorem demo_run : runNotebook demoWorld = .ok (demoRes, demoState) := rfl

/-- The bind of the notebook monad is NB.bind. -/
theorem bind_def {α β : Type} (x : NB α) (f : α → NB β) : x >>= f = NB.bind x f := rfl

/-- A successfully dispatched sub-question leaves the global service
context unchanged and appends exactly one engine query event, for the
engine wrapped by one of the tools. -/
theorem runSubQuestion_ok (w : World) (tools : List QueryEngineTool)
    (sq : SubQuestion) (s : NBState) (a : String) (s1 : NBState)
    (h : runSubQuestion w tools sq s = .ok (a, s1)) :
    s1.global_service_context = s.global_service_context ∧
    ∃ t ∈ tools,
      s1.trace = s.trace ++ [Event.engine_query t.query_engine sq.sub_question] := by
  unfold runSubQuestion at h
  cases hfind : tools.find? (fun t => t.metadata.name == sq.tool_name) with
  | none => rw [hfind] at h; exact absurd h (by simp)
  | some tool =>
    rw [hfind] at h
    simp only [] at h
    unfold QueryEngine.aquery at h
    cases hc : w.complete tool.query_engine.index.service_context
        tool.query_engine.index.docs tool.query_engine.similarity_top_k
        sq.sub_question with
    | error e => rw [hc] at h; exact absurd h (by simp)
    | ok r =>
      rw [hc] at h
      simp only [Except.ok.injEq, Prod.mk.injEq] at h
      refine ⟨?_, tool, List.mem_of_find?_eq_some hfind, ?_⟩ <;>
        rw [← h.2]

/-- A successful sequential run of a list of sub-questions leaves the
global service context unchanged and appends only engine query events for
engines wrapped by the tools. -/
theorem runSubQuestions_ok (w : World) (tools : List QueryEngineTool) :
    ∀ (sqs : List SubQuestion) (s : NBState) (out : List String) (s1 : NBState),
      runSubQuestions w tools sqs s = .ok (out, s1) →
      s1.global_service_context = s.global_service_context ∧
      ∃ d, s1.trace = s.trace ++ d ∧
        ∀ ev ∈ d, ∃ t ∈ tools, ∃ q, ev = Event.engine_query t.query_engine q := by
  intro sqs
  induction sqs with
  | nil =>
    intro s out s1 h
    simp only [runSubQuestions, NB.pure, Except.ok.injEq, Prod.mk.injEq] at h
    refine ⟨by rw [← h.2], [], by simp [← h.2], by simp⟩
  | cons sq rest ih =>
    intro s out s1 h
    simp only [runSubQuestions, NB.bind] at h
    cases h1 : runSubQuestion w tools sq s with
    | error e => rw [h1] at h; exact absurd h (by simp)
    | ok pa =>
      obtain ⟨a, sa⟩ := pa
      rw [h1] at h
      simp only [] at h
      cases h2 : runSubQuestions w tools rest sa with
      | error e => rw [h2] at h; exact absurd h (by simp)
      | ok pb =>
        obtain ⟨as, sb⟩ := pb
        rw [h2] at h
        simp only [NB.pure, Except.ok.injEq, Prod.mk.injEq] at h
        obtain ⟨hg1, t, ht, htr1⟩ := runSubQuestion_ok w tools sq s a sa h1
        obtain ⟨hg2, d, htr2, hd⟩ := ih sa as sb h2
        refine ⟨by rw [← h.2, hg2, hg1],
          Event.engine_query t.query_engine sq.sub_question :: d, ?_, ?_⟩
        · rw [← h.2, htr2, htr1]; simp
        · intro ev hev
          rcases List.mem_cons.mp hev with hev | hev
          · exact ⟨t, ht, sq.sub_question, hev⟩
          · exact hd ev hev

/-- A successful sub-question engine query leaves the global service
context unchanged and appends a decomposition event followed only by
engine query events for engines wrapped by its tools. -/
theorem subq_aquery_ok (w : World) (e : SubQuestionQueryEngine) (q : String)
    (s : NBState) (r : String) (s1 : NBState)
    (h : SubQuestionQueryEngine.aquery w e q s = .ok (r, s1)) :
    s1.global_service_context = s.global_service_context ∧
    ∃ d, s1.trace = s.trace ++ d ∧
      d.head? = some (.sub_query (e.query_engine_tools.map (fun t => t.metadata.name)) q) ∧
      ∀ ev ∈ d,
        ev = Event.sub_query (e.query_engine_tools.map (fun t => t.metadata.name)) q ∨
        ∃ t ∈ e.query_engine_tools, ∃ sq, ev = Event.engine_query t.query_engine sq := by
  unfold SubQuestionQueryEngine.aquery at h
  simp only [NB.bind, liftE, emit] at h
  cases hg : w.gen_sub_questions (e.query_engine_tools.map (fun t => t.metadata)) q with
  | error err => rw [hg] at h; exact absurd h (by simp)
  | ok subqs =>
    rw [hg] at h
    simp only [] at h
    cases hrs : runSubQuestions w e.query_engine_tools subqs
        { s with trace := s.trace ++
            [.sub_query (e.query_engine_tools.map (fun t => t.metadata.name)) q] } with
    | error err => rw [hrs] at h; exact absurd h (by simp)
    | ok pb =>
      obtain ⟨answers, s2⟩ := pb
      rw [hrs] at h
      simp only [] at h
      cases hsy : w.synthesize e.service_context q answers with
      | error err => rw [hsy] at h; exact absurd h (by simp)
      | ok rr =>
        rw [hsy] at h
        simp only [Except.ok.injEq, Prod.mk.injEq] at h
        obtain ⟨hgpres, d, htr, hd⟩ :=
          runSubQuestions_ok w e.query_engine_tools subqs _ answers s2 hrs
        refine ⟨by rw [← h.2, hgpres],
          Event.sub_query (e.query_engine_tools.map (fun t => t.metadata.name)) q :: d,
          ?_, by simp, ?_⟩
        · rw [← h.2, htr]; simp
        · intro ev hev
          rcases List.mem_cons.mp hev with hev | hev
          · exact Or.inl hev
          · exact Or.inr (hd ev hev)

/-- Loading a single file through the reader is exactly one external load call. -/
theorem loadFiles_singleton (w : World) (p : String) :
    loadFiles w [p] = w.load p := by
  cases hw : w.load p <;> simp [loadFiles, hw]

set_option maxHeartbeats 1000000 in
/-- Characterization of every successful run of the notebook: how each
bound object is built from the external calls, and the exact shape of the
trace. -/
theorem run_ok_spec (w : World) (res : NotebookResult) (s : NBState)
    (h : runNotebook w = .ok (res, s)) :
    w.load lyft_pdf = .ok res.lyft_docs ∧
    w.load uber_pdf = .ok res.uber_docs ∧
    w.embed res.lyft_docs = .ok () ∧
    w.embed res.uber_docs = .ok () ∧
    res.llm = llm0 ∧
    res.service_context = ctx0 ∧
    res.lyft_index = ⟨res.lyft_docs, ctx0⟩ ∧
    res.uber_index = ⟨res.uber_docs, ctx0⟩ ∧
    res.lyft_engine = ⟨res.lyft_index, 3⟩ ∧
    res.uber_engine = ⟨res.uber_index, 3⟩ ∧
    w.complete ctx0 res.lyft_docs 3 q_lyft_revenue = .ok res.lyft_response ∧
    w.complete ctx0 res.uber_docs 3 q_uber_revenue = .ok res.uber_response ∧
    res.query_engine_tools =
      [⟨res.lyft_engine, ⟨"lyft_10k", lyft_tool_description⟩⟩,
       ⟨res.uber_engine, ⟨"uber_10k", uber_tool_description⟩⟩] ∧
    res.s_engine = ⟨res.query_engine_tools, ctx0⟩ ∧
    s.global_service_context = some ctx0 ∧
    ∃ d3 d4,
      s.trace = mainTrace res ++ d3 ++ d4 ∧
      s = ⟨some ctx0, mainTrace res ++ d3 ++ d4⟩ ∧
      SubQuestionQueryEngine.aquery w res.s_engine q_compare_segments
          ⟨some ctx0, mainTrace res⟩ =
        .ok (res.compare_response, ⟨some ctx0, mainTrace res ++ d3⟩) ∧
      SubQuestionQueryEngine.aquery w res.s_engine q_compare_growth
          ⟨some ctx0, mainTrace res ++ d3⟩ =
        .ok (res.growth_response, ⟨some ctx0, mainTrace res ++ d3 ++ d4⟩) ∧
      d3.head? = some (.sub_query tool_names0 q_compare_segments) ∧
      d4.head? = some (.sub_query tool_names0 q_compare_growth) ∧
      (∀ ev ∈ d3, subEvent res ev) ∧ (∀ ev ∈ d4, subEvent res ev) := by
  unfold runNotebook notebook at h
  simp only [bind_def, NB.bind, NB.pure, OpenAI.new, set_global_service_context,
    SimpleDirectoryReader.load_data, VectorStoreIndex.from_documents,
    VectorStoreIndex.as_query_engine, QueryEngine.aquery,
    SubQuestionQueryEngine.from_defaults, ServiceContext.from_defaults,
    initState, loadFiles_singleton, List.nil_append, List.cons_append,
    List.append_nil, List.map_cons, List.map_nil] at h
  cases hw1 : w.load lyft_pdf with
  | error e => rw [hw1] at h; simp at h
  | ok dl =>
  rw [hw1] at h
  simp only [List.nil_append, List.cons_append, List.append_nil] at h
  cases hw2 : w.load uber_pdf with
  | error e => rw [hw2] at h; simp at h
  | ok du =>
  rw [hw2] at h
  simp only [List.nil_append, List.cons_append, List.append_nil] at h
  cases he1 : w.embed dl with
  | error e => rw [he1] at h; simp at h
  | ok u1 =>
  rw [he1] at h
  simp only [List.nil_append, List.cons_append, List.append_nil] at h
  cases he2 : w.embed du with
  | error e => rw [he2] at h; simp at h
  | ok u2 =>
  rw [he2] at h
  simp only [List.nil_append, List.cons_append, List.append_nil] at h
  cases hc1 : w.complete ⟨⟨0, "gpt-3.5-turbo-instruct", -1⟩⟩ dl 3 q_lyft_revenue with
  | error e => rw [hc1] at h; simp at h
  | ok r1 =>
  rw [hc1] at h
  simp only [List.nil_append, List.cons_append, List.append_nil] at h
  cases hc2 : w.complete ⟨⟨0, "gpt-3.5-turbo-instruct", -1⟩⟩ du 3 q_uber_revenue with
  | error e => rw [hc2] at h; simp at h
  | ok r2 =>
  rw [hc2] at h
  simp only [List.nil_append, List.cons_append, List.append_nil] at h
  split at h
  rotate_left
  · simp at h
  rename_i r3 s3 hq3
  split at h
  rotate_left
  · simp at h
  rename_i r4 s4 hq4
  simp only [Except.ok.injEq, Prod.mk.injEq] at h
  obtain ⟨hres, hs⟩ := h
  subst hres
  subst hs
  obtain ⟨g3, t3⟩ := s3
  obtain ⟨hg3, d3, htr3, hhead3, hsub3⟩ := subq_aquery_ok w _ _ _ _ _ hq3
  simp only [] at hg3 htr3
  subst hg3
  subst htr3
  obtain ⟨g4, t4⟩ := s4
  obtain ⟨hg4, d4, htr4, hhead4, hsub4⟩ := subq_aquery_ok w _ _ _ _ _ hq4
  simp only [] at hg4 htr4
  subst hg4
  subst htr4
  refine ⟨rfl, rfl, he1, he2, rfl, rfl, rfl, rfl, rfl, rfl, hc1, hc2, rfl,
    rfl, rfl, d3, d4, rfl, rfl, hq3, hq4, hhead3, hhead4, ?_, ?_⟩
  · intro ev hev
    rcases hsub3 ev hev with h1 | ⟨t, ht, sq, h2⟩
    · exact Or.inl ⟨q_compare_segments, h1⟩
    · exact Or.inr ⟨t, ht, sq, h2⟩
  · intro ev hev
    rcases hsub4 ev hev with h1 | ⟨t, ht, sq, h2⟩
    · exact Or.inl ⟨q_compare_growth, h1⟩
    · exact Or.inr ⟨t, ht, sq, h2⟩

/-- Extract the engine of a make engine event. -/
def makeEngineOf : Event → Option QueryEngine
  | .make_engine e => some e
  | _ => none

/-- Extract the input files of a load event. -/
def loadOf : Event → Option (List String)
  | .load_files fs => some fs
  | _ => none

/-- Extract the client of an LLM instantiation event. -/
def llmOf : Event → Option OpenAI
  | .instantiate_llm c => some c
  | _ => none

/-- Extract the context of a set global event. -/
def setGlobalOf : Event → Option ServiceContext
  | .set_global c => some c
  | _ => none

/-- Extract the index of a build index event. -/
def buildIndexOf : Event → Option VectorStoreIndex
  | .build_index i => some i
  | _ => none

/-- Events produced by sub-question execution are neither instantiation,
set global, load, build index nor make engine events. -/
theorem subEvent_extractors {res : NotebookResult} {ev : Event}
    (h : subEvent res ev) :
    makeEngineOf ev = none ∧ loadOf ev = none ∧ llmOf ev = none ∧
    setGlobalOf ev = none ∧ buildIndexOf ev = none := by
  rcases h with ⟨q, rfl⟩ | ⟨t, ht, sq, rfl⟩ <;>
    simp [makeEngineOf, loadOf, llmOf, setGlobalOf, buildIndexOf]

/-- A list of sub-question events contributes nothing under an extractor
that ignores sub-question events. -/
theorem filterMap_eq_nil_of_subEvent {γ : Type} {res : NotebookResult}
    {d : List Event} (hd : ∀ ev ∈ d, subEvent res ev) (f : Event → Option γ)
    (hf : ∀ ev, subEvent res ev → f ev = none) : d.filterMap f = [] :=
  List.filterMap_eq_nil_iff.mpr (fun ev hev => hf ev (hd ev hev))

/-- The lyft revenue answer recorded in the notebook output. -/
def recorded_lyft_answer : String := "$3,208.3 million (page 63)"

/-- The uber revenue answer recorded in the notebook output. -/
def recorded_uber_answer : String := "$17,455 (page 53)"

/-- An external world reproducing the interaction recorded in the
notebook output cells: the recorded revenue answers and the recorded
sub-question decompositions. -/
def recordedWorld : World where
  load := fun p =>
    if p = lyft_pdf then .ok [⟨"Lyft 10-K 2021"⟩]
    else if p = uber_pdf then .ok [⟨"Uber 10-K 2021"⟩]
    else .error (.fileNotFound p)
  embed := fun _ => .ok ()
  complete := fun _ _ _ q =>
    if q = q_lyft_revenue then .ok recorded_lyft_answer
    else if q = q_uber_revenue then .ok recorded_uber_answer
    else .ok ("(sub-answer)")
  gen_sub_questions := fun _ q =>
    if q = q_compare_segments then
      .ok [⟨"uber_10k", "What customer segments grew the fastest for Uber"⟩,
           ⟨"uber_10k", "What geographies grew the fastest for Uber"⟩,
           ⟨"lyft_10k", "What customer segments grew the fastest for Lyft"⟩,
           ⟨"lyft_10k", "What geographies grew the fastest for Lyft"⟩]
    else
      .ok [⟨"uber_10k", "What is the revenue growth of Uber from 2020 to 2021"⟩,
           ⟨"lyft_10k", "What is the revenue growth of Lyft from 2020 to 2021"⟩]
  synthesize := fun _ _ answers => .ok (String.intercalate ("; ") answers)

/-- The demo world with different Uber documents and everything else,
including the Lyft documents and the completion behaviour, unchanged. -/
def altWorld : World :=
  { demoWorld with
    load := fun p =>
      if p = uber_pdf then .ok [⟨"other uber page"⟩] else demoWorld.load p }

/-- The tool list the notebook builds over the given loaded documents. -/
def toolsFor (dl du : List Document) : List QueryEngineTool :=
  [⟨⟨⟨dl, ctx0⟩, 3⟩, ⟨"lyft_10k", lyft_tool_description⟩⟩,
   ⟨⟨⟨du, ctx0⟩, 3⟩, ⟨"uber_10k", uber_tool_description⟩⟩]

/-- The sub-question engine the notebook composes over the given
loaded documents. -/
def sEngineFor (dl du : List Document) : SubQuestionQueryEngine :=
  ⟨toolsFor dl du, ctx0⟩

/-- The notebook state right after the sub-question engine is composed
over the given loaded documents. -/
def stateAfterCompose (dl du : List Document) : NBState :=
  ⟨some ctx0,
   [.instantiate_llm llm0,
    .set_global ctx0,
    .load_files [lyft_pdf],
    .load_files [uber_pdf],
    .build_index ⟨dl, ctx0⟩,
    .build_index ⟨du, ctx0⟩,
    .make_engine ⟨⟨dl, ctx0⟩, 3⟩,
    .make_engine ⟨⟨du, ctx0⟩, 3⟩,
    .engine_query ⟨⟨dl, ctx0⟩, 3⟩ q_lyft_revenue,
    .engine_query ⟨⟨du, ctx0⟩, 3⟩ q_uber_revenue,
    .compose_subquestion tool_names0]⟩

/-- C2: every failure raised by an external call propagates out of the
notebook unchanged, at every stage: either load, either index embedding,
either simple query completion, and either whole compare query; and
inside the sub-question engine every internal failure point propagates
in turn: sub-question generation, each dispatched sub-question at any
position of the generated list (an unknown tool name as well as a
failing completion) and answer synthesis.  Each conjunct states that a
failing call, with everything before it succeeding, aborts the
computation with exactly the raised error. -/
theorem c2_unhandled_errors (w : World) :
    (∀ e, w.load lyft_pdf = .error e → runNotebook w = .error e) ∧
    (∀ e dl, w.load lyft_pdf = .ok dl → w.load uber_pdf = .error e →
      runNotebook w = .error e) ∧
    (∀ e dl du, w.load lyft_pdf = .ok dl → w.load uber_pdf = .ok du →
      w.embed dl = .error e → runNotebook w = .error e) ∧
    (∀ e dl du, w.load lyft_pdf = .ok dl → w.load uber_pdf = .ok du →
      w.embed dl = .ok () → w.embed du = .error e →
      runNotebook w = .error e) ∧
    (∀ e dl du, w.load lyft_pdf = .ok dl → w.load uber_pdf = .ok du →
      w.embed dl = .ok () → w.embed du = .ok () →
      w.complete ctx0 dl 3 q_lyft_revenue = .error e →
      runNotebook w = .error e) ∧
    (∀ e dl du r1, w.load lyft_pdf = .ok dl → w.load uber_pdf = .ok du →
      w.embed dl = .ok () → w.embed du = .ok () →
      w.complete ctx0 dl 3 q_lyft_revenue = .ok r1 →
      w.complete ctx0 du 3 q_uber_revenue = .error e →
      runNotebook w = .error e) ∧
    (∀ e dl du r1 r2, w.load lyft_pdf = .ok dl → w.load uber_pdf = .ok du →
      w.embed dl = .ok () → w.embed du = .ok () →
      w.complete ctx0 dl 3 q_lyft_revenue = .ok r1 →
      w.complete ctx0 du 3 q_uber_revenue = .ok r2 →
      SubQuestionQueryEngine.aquery w (sEngineFor dl du) q_compare_segments
        (stateAfterCompose dl du) = .error e →
      runNotebook w = .error e) ∧
    (∀ e dl du r1 r2 r3 s3,
      w.load lyft_pdf = .ok dl → w.load uber_pdf = .ok du →
      w.embed dl = .ok () → w.embed du = .ok () →
      w.complete ctx0 dl 3 q_lyft_revenue = .ok r1 →
      w.complete ctx0 du 3 q_uber_revenue = .ok r2 →
      SubQuestionQueryEngine.aquery w (sEngineFor dl du) q_compare_segments
        (stateAfterCompose dl du) = .ok (r3, s3) →
      SubQuestionQueryEngine.aquery w (sEngineFor dl du) q_compare_growth s3 =
        .error e →
      runNotebook w = .error e) ∧
    (∀ (E : SubQuestionQueryEngine) (q : String) (st : NBState) (e : Err),
      w.gen_sub_questions (E.query_engine_tools.map (fun t => t.metadata)) q =
        .error e →
      SubQuestionQueryEngine.aquery w E q st = .error e) ∧
    (∀ (E : SubQuestionQueryEngine) (q : String) (st : NBState) (e : Err)
        subqs,
      w.gen_sub_questions (E.query_engine_tools.map (fun t => t.metadata)) q =
        .ok subqs →
      runSubQuestions w E.query_engine_tools subqs
        ⟨st.global_service_context,
         st.trace ++
           [.sub_query (E.query_engine_tools.map (fun t => t.metadata.name)) q]⟩ =
        .error e →
      SubQuestionQueryEngine.aquery w E q st = .error e) ∧
    (∀ (E : SubQuestionQueryEngine) (q : String) (st : NBState) (e : Err)
        subqs answers st2,
      w.gen_sub_questions (E.query_engine_tools.map (fun t => t.metadata)) q =
        .ok subqs →
      runSubQuestions w E.query_engine_tools subqs
        ⟨st.global_service_context,
         st.trace ++
           [.sub_query (E.query_engine_tools.map (fun t => t.metadata.name)) q]⟩ =
        .ok (answers, st2) →
      w.synthesize E.service_context q answers = .error e →
      SubQuestionQueryEngine.aquery w E q st = .error e) ∧
    (∀ tools sq rest st e, runSubQuestion w tools sq st = .error e →
      runSubQuestions w tools (sq :: rest) st = .error e) ∧
    (∀ tools sq rest st a st1 e,
      runSubQuestion w tools sq st = .ok (a, st1) →
      runSubQuestions w tools rest st1 = .error e →
      runSubQuestions w tools (sq :: rest) st = .error e) ∧
    (∀ tools sq st,
      tools.find? (fun t => t.metadata.name == sq.tool_name) = none →
      runSubQuestion w tools sq st = .error (.unknownTool sq.tool_name)) ∧
    (∀ tools sq st tool e,
      tools.find? (fun t => t.metadata.name == sq.tool_name) = some tool →
      w.complete tool.query_engine.index.service_context
        tool.query_engine.index.docs tool.query_engine.similarity_top_k
        sq.sub_question = .error e →
      runSubQuestion w tools sq st = .error e) := by
  refine ⟨?_, ?_, ?_, ?_, ?_, ?_, ?_, ?_, ?_, ?_, ?_, ?_, ?_, ?_, ?_⟩
  · intro e he
    unfold runNotebook notebook
    simp only [bind_def, NB.bind, NB.pure, OpenAI.new, set_global_service_context,
      SimpleDirectoryReader.load_data, VectorStoreIndex.from_documents,
      VectorStoreIndex.as_query_engine, QueryEngine.aquery,
      SubQuestionQueryEngine.from_defaults, ServiceContext.from_defaults,
      initState, loadFiles_singleton, List.nil_append, List.cons_append,
      List.append_nil, List.map_cons, List.map_nil]
    rw [he]
  · intro e dl h1 h2
    unfold runNotebook notebook
    simp only [bind_def, NB.bind, NB.pure, OpenAI.new, set_global_service_context,
      SimpleDirectoryReader.load_data, VectorStoreIndex.from_documents,
      VectorStoreIndex.as_query_engine, QueryEngine.aquery,
      SubQuestionQueryEngine.from_defaults, ServiceContext.from_defaults,
      initState, loadFiles_singleton, List.nil_append, List.cons_append,
      List.append_nil, List.map_cons, List.map_nil]
    rw [h1]
    simp only [List.nil_append, List.cons_append, List.append_nil]
    rw [h2]
  · intro e dl du h1 h2 h3
    unfold runNotebook notebook
    simp only [bind_def, NB.bind, NB.pure, OpenAI.new, set_global_service_context,
      SimpleDirectoryReader.load_data, VectorStoreIndex.from_documents,
      VectorStoreIndex.as_query_engine, QueryEngine.aquery,
      SubQuestionQueryEngine.from_defaults, ServiceContext.from_defaults,
      initState, loadFiles_singleton, List.nil_append, List.cons_append,
      List.append_nil, List.map_cons, List.map_nil]
    rw [h1]
    simp only [List.nil_append, List.cons_append, List.append_nil]
    rw [h2]
    simp only [List.nil_append, List.cons_append, List.append_nil]
    rw [h3]
  · intro e dl du h1 h2 h3 h4
    unfold runNotebook notebook
    simp only [bind_def, NB.bind, NB.pure, OpenAI.new, set_global_service_context,
      SimpleDirectoryReader.load_data, VectorStoreIndex.from_documents,
      VectorStoreIndex.as_query_engine, QueryEngine.aquery,
      SubQuestionQueryEngine.from_defaults, ServiceContext.from_defaults,
      initState, loadFiles_singleton, List.nil_append, List.cons_append,
      List.append_nil, List.map_cons, List.map_nil]
    rw [h1]
    simp only [List.nil_append, List.cons_append, List.append_nil]
    rw [h2]
    simp only [List.nil_append, List.cons_append, List.append_nil]
    rw [h3]
    simp only [List.nil_append, List.cons_append, List.append_nil]
    rw [h4]
  · intro e dl du h1 h2 h3 h4 h5
    simp only [ctx0, llm0] at h5
    unfold runNotebook notebook
    simp only [bind_def, NB.bind, NB.pure, OpenAI.new, set_global_service_context,
      SimpleDirectoryReader.load_data, VectorStoreIndex.from_documents,
      VectorStoreIndex.as_query_engine, QueryEngine.aquery,
      SubQuestionQueryEngine.from_defaults, ServiceContext.from_defaults,
      initState, loadFiles_singleton, List.nil_append, List.cons_append,
      List.append_nil, List.map_cons, List.map_nil]
    rw [h1]
    simp only [List.nil_append, List.cons_append, List.append_nil]
    rw [h2]
    simp only [List.nil_append, List.cons_append, List.append_nil]
    rw [h3]
    simp only [List.nil_append, List.cons_append, List.append_nil]
    rw [h4]
    simp only [List.nil_append, List.cons_append, List.append_nil]
    rw [h5]
  · intro e dl du r1 h1 h2 h3 h4 h5 h6
    simp only [ctx0, llm0] at h5 h6
    unfold runNotebook notebook
    simp only [bind_def, NB.bind, NB.pure, OpenAI.new, set_global_service_context,
      SimpleDirectoryReader.load_data, VectorStoreIndex.from_documents,
      VectorStoreIndex.as_query_engine, QueryEngine.aquery,
      SubQuestionQueryEngine.from_defaults, ServiceContext.from_defaults,
      initState, loadFiles_singleton, List.nil_append, List.cons_append,
      List.append_nil, List.map_cons, List.map_nil]
    rw [h1]
    simp only [List.nil_append, List.cons_append, List.append_nil]
    rw [h2]
    simp only [List.nil_append, List.cons_append, List.append_nil]
    rw [h3]
    simp only [List.nil_append, List.cons_append, List.append_nil]
    rw [h4]
    simp only [List.nil_append, List.cons_append, List.append_nil]
    rw [h5]
    simp only [List.nil_append, List.cons_append, List.append_nil]
    rw [h6]
  · intro e dl du r1 r2 h1 h2 h3 h4 h5 h6 h7
    simp only [ctx0, llm0] at h5 h6
    simp only [sEngineFor, toolsFor, stateAfterCompose, tool_names0, ctx0,
      llm0] at h7
    unfold runNotebook notebook
    simp only [bind_def, NB.bind, NB.pure, OpenAI.new, set_global_service_context,
      SimpleDirectoryReader.load_data, VectorStoreIndex.from_documents,
      VectorStoreIndex.as_query_engine, QueryEngine.aquery,
      SubQuestionQueryEngine.from_defaults, ServiceContext.from_defaults,
      initState, loadFiles_singleton, List.nil_append, List.cons_append,
      List.append_nil, List.map_cons, List.map_nil]
    rw [h1]
    simp only [List.nil_append, List.cons_append, List.append_nil]
    rw [h2]
    simp only [List.nil_append, List.cons_append, List.append_nil]
    rw [h3]
    simp only [List.nil_append, List.cons_append, List.append_nil]
    rw [h4]
    simp only [List.nil_append, List.cons_append, List.append_nil]
    rw [h5]
    simp only [List.nil_append, List.cons_append, List.append_nil]
    rw [h6]
    simp only [List.nil_append, List.cons_append, List.append_nil,
      List.map_cons, List.map_nil]
    rw [h7]
  · intro e dl du r1 r2 r3 s3 h1 h2 h3 h4 h5 h6 h7 h8
    simp only [ctx0, llm0] at h5 h6
    simp only [sEngineFor, toolsFor, stateAfterCompose, tool_names0, ctx0,
      llm0] at h7 h8
    unfold runNotebook notebook
    simp only [bind_def, NB.bind, NB.pure, OpenAI.new, set_global_service_context,
      SimpleDirectoryReader.load_data, VectorStoreIndex.from_documents,
      VectorStoreIndex.as_query_engine, QueryEngine.aquery,
      SubQuestionQueryEngine.from_defaults, ServiceContext.from_defaults,
      initState, loadFiles_singleton, List.nil_append, List.cons_append,
      List.append_nil, List.map_cons, List.map_nil]
    rw [h1]
    simp only [List.nil_append, List.cons_append, List.append_nil]
    rw [h2]
    simp only [List.nil_append, List.cons_append, List.append_nil]
    rw [h3]
    simp only [List.nil_append, List.cons_append, List.append_nil]
    rw [h4]
    simp only [List.nil_append, List.cons_append, List.append_nil]
    rw [h5]
    simp only [List.nil_append, List.cons_append, List.append_nil]
    rw [h6]
    simp only [List.nil_append, List.cons_append, List.append_nil,
      List.map_cons, List.map_nil]
    rw [h7]
    simp only [List.nil_append, List.cons_append, List.append_nil]
    rw [h8]
  · intro E q st e hgen
    unfold SubQuestionQueryEngine.aquery
    simp only [NB.bind, liftE, emit]
    rw [hgen]
  · intro E q st e subqs hgen hrun
    unfold SubQuestionQueryEngine.aquery
    simp only [NB.bind, liftE, emit]
    rw [hgen]
    simp only [List.nil_append, List.cons_append, List.append_nil]
    rw [hrun]
  · intro E q st e subqs answers st2 hgen hrun hsyn
    unfold SubQuestionQueryEngine.aquery
    simp only [NB.bind, liftE, emit]
    rw [hgen]
    simp only [List.nil_append, List.cons_append, List.append_nil]
    rw [hrun]
    simp only [List.nil_append, List.cons_append, List.append_nil]
    rw [hsyn]
  · intro tools sq rest st e hfail
    unfold runSubQuestions
    simp only [NB.bind]
    rw [hfail]
  · intro tools sq rest st a st1 e hok hrest
    unfold runSubQuestions
    simp only [NB.bind]
    rw [hok]
    simp only [List.nil_append, List.cons_append, List.append_nil]
    rw [hrest]
  · intro tools sq st hfind
    unfold runSubQuestion
    rw [hfind]
  · intro tools sq st tool e hfind hc
    unfold runSubQuestion
    rw [hfind]
    simp only [List.nil_append, List.cons_append, List.append_nil]
    unfold QueryEngine.aquery
    rw [hc]

/-- A world whose loader always fails. -/
def errLoadWorld : World :=
  { demoWorld with load := fun p => .error (.fileNotFound p) }

/-- A world whose loader fails on everything but the Lyft PDF. -/
def errUberLoadWorld : World :=
  { demoWorld with load := fun p =>
      if p = lyft_pdf then .ok [⟨"lyft page"⟩] else .error (.fileNotFound p) }

/-- A world whose embedding computation always fails. -/
def errEmbedWorld : World :=
  { demoWorld with embed := fun _ => .error (.apiError ("embedding failed")) }

/-- A world whose embedding computation fails exactly on the Uber pages. -/
def errUberEmbedWorld : World :=
  { demoWorld with embed := fun docs =>
      (if docs = [⟨"uber page"⟩] then .error (.apiError ("embedding failed"))
       else .ok ()) }

/-- A world whose LLM completion always fails. -/
def errCompleteWorld : World :=
  { demoWorld with complete := fun _ _ _ _ => .error (.apiError ("rate limit")) }

/-- A world whose LLM completion fails exactly on the Uber revenue query. -/
def errUberQueryWorld : World :=
  { demoWorld with complete := fun _ _ _ q =>
      if q = q_uber_revenue then .error (.apiError ("rate limit")) else .ok ("fine") }

/-- A world whose sub-question generation always fails. -/
def errSubQWorld : World :=
  { demoWorld with gen_sub_questions := fun _ _ => .error (.malformedResponse ("bad json")) }

/-- A world whose sub-question generation fails exactly on the second
compare query. -/
def errGrowthWorld : World :=
  { demoWorld with gen_sub_questions := fun metas q =>
      (if q = q_compare_growth then .error (.malformedResponse ("bad json"))
       else .ok (metas.map (fun m => ⟨m.name, q⟩))) }

/-- A world whose sub-question generation names a tool that does not
exist. -/
def errToolWorld : World :=
  { demoWorld with gen_sub_questions := fun _ q => .ok [⟨"missing_tool", q⟩] }

/-- A world whose answer synthesis always fails. -/
def errSynthWorld : World :=
  { demoWorld with synthesize := fun _ _ _ => .error (.apiError ("synthesis failed")) }

/-- Witness for C2: a failure at each stage, including every internal
stage of the sub-question engine, aborts with exactly that error. -/
theorem c2_unhandled_errors_witness :
    runNotebook errLoadWorld = .error (.fileNotFound lyft_pdf) ∧
    runNotebook errUberLoadWorld = .error (.fileNotFound uber_pdf) ∧
    runNotebook errEmbedWorld = .error (.apiError ("embedding failed")) ∧
    runNotebook errUberEmbedWorld = .error (.apiError ("embedding failed")) ∧
    runNotebook errCompleteWorld = .error (.apiError ("rate limit")) ∧
    runNotebook errUberQueryWorld = .error (.apiError ("rate limit")) ∧
    runNotebook errSubQWorld = .error (.malformedResponse ("bad json")) ∧
    runNotebook errToolWorld = .error (.unknownTool ("missing_tool")) ∧
    runNotebook errGrowthWorld = .error (.malformedResponse ("bad json")) ∧
    SubQuestionQueryEngine.aquery errSubQWorld
      (sEngineFor demo_lyft_docs demo_uber_docs) q_compare_segments initState =
      .error (.malformedResponse ("bad json")) ∧
    SubQuestionQueryEngine.aquery errCompleteWorld
      (sEngineFor demo_lyft_docs demo_uber_docs) q_compare_segments initState =
      .error (.apiError ("rate limit")) ∧
    SubQuestionQueryEngine.aquery errSynthWorld
      (sEngineFor demo_lyft_docs demo_uber_docs) q_compare_segments initState =
      .error (.apiError ("synthesis failed")) ∧
    runSubQuestions errCompleteWorld (toolsFor demo_lyft_docs demo_uber_docs)
      [⟨"lyft_10k", q_compare_segments⟩] initState =
      .error (.apiError ("rate limit")) ∧
    runSubQuestions demoWorld (toolsFor demo_lyft_docs demo_uber_docs)
      [⟨"lyft_10k", q_compare_segments⟩, ⟨"missing_tool", q_compare_segments⟩]
      initState = .error (.unknownTool ("missing_tool")) ∧
    runSubQuestion demoWorld (toolsFor demo_lyft_docs demo_uber_docs)
      ⟨"missing_tool", q_compare_segments⟩ initState =
      .error (.unknownTool ("missing_tool")) ∧
    runSubQuestion errCompleteWorld (toolsFor demo_lyft_docs demo_uber_docs)
      ⟨"lyft_10k", q_compare_segments⟩ initState =
      .error (.apiError ("rate limit")) := by
  refine ⟨?_, ?_, ?_, ?_, ?_, ?_, ?_, ?_, ?_, ?_, ?_, ?_, ?_, ?_, ?_, ?_⟩
  · exact (c2_unhandled_errors errLoadWorld).1 _ rfl
  · exact (c2_unhandled_errors errUberLoadWorld).2.1 _ _ rfl rfl
  · exact (c2_unhandled_errors errEmbedWorld).2.2.1 _ _ _ rfl rfl rfl
  · exact (c2_unhandled_errors errUberEmbedWorld).2.2.2.1 _ _ _ rfl rfl rfl rfl
  · exact (c2_unhandled_errors errCompleteWorld).2.2.2.2.1 _ _ _
      rfl rfl rfl rfl rfl
  · exact (c2_unhandled_errors errUberQueryWorld).2.2.2.2.2.1 _ _ _ _
      rfl rfl rfl rfl rfl rfl
  · exact (c2_unhandled_errors errSubQWorld).2.2.2.2.2.2.1 _ _ _ _ _
      rfl rfl rfl rfl rfl rfl rfl
  · exact (c2_unhandled_errors errToolWorld).2.2.2.2.2.2.1 _ _ _ _ _
      rfl rfl rfl rfl rfl rfl rfl
  · exact (c2_unhandled_errors errGrowthWorld).2.2.2.2.2.2.2.1 _ _ _ _ _ _ _
      rfl rfl rfl rfl rfl rfl rfl rfl
  · exact (c2_unhandled_errors errSubQWorld).2.2.2.2.2.2.2.2.1 _ _ _ _ rfl
  · exact (c2_unhandled_errors errCompleteWorld).2.2.2.2.2.2.2.2.2.1 _ _ _ _ _
      rfl rfl
  · exact (c2_unhandled_errors errSynthWorld).2.2.2.2.2.2.2.2.2.2.1 _ _ _ _ _
      _ _ rfl rfl rfl
  · exact (c2_unhandled_errors errCompleteWorld).2.2.2.2.2.2.2.2.2.2.2.1 _ _ _
      _ _ rfl
  · exact (c2_unhandled_errors demoWorld).2.2.2.2.2.2.2.2.2.2.2.2.1 _ _ _ _ _
      _ _ rfl rfl
  · exact (c2_unhandled_errors demoWorld).2.2.2.2.2.2.2.2.2.2.2.2.2.1 _ _ _
      rfl
  · exact (c2_unhandled_errors errCompleteWorld).2.2.2.2.2.2.2.2.2.2.2.2.2.2
      _ _ _ _ _ rfl rfl

/-- Every event of the main trace is one of eleven explicit steps. -/
theorem mainTrace_events (res : NotebookResult) (ev : Event)
    (hev : ev ∈ mainTrace res) :
    ev = .instantiate_llm llm0 ∨ ev = .set_global ctx0 ∨
    ev = .load_files [lyft_pdf] ∨ ev = .load_files [uber_pdf] ∨
    ev = .build_index ⟨res.lyft_docs, ctx0⟩ ∨
    ev = .build_index ⟨res.uber_docs, ctx0⟩ ∨
    ev = .make_engine ⟨⟨res.lyft_docs, ctx0⟩, 3⟩ ∨
    ev = .make_engine ⟨⟨res.uber_docs, ctx0⟩, 3⟩ ∨
    ev = .engine_query ⟨⟨res.lyft_docs, ctx0⟩, 3⟩ q_lyft_revenue ∨
    ev = .engine_query ⟨⟨res.uber_docs, ctx0⟩, 3⟩ q_uber_revenue ∨
    ev = .compose_subquestion tool_names0 := by
  simpa [mainTrace] using hev

/-- C3: the service context is installed as the global default exactly
once, as the second step of the run and before any load, index build or
query; it is never replaced, it is still the global default at the end,
and every index build and every executed query used exactly it. -/
theorem c3_global_service_context (w : World) (res : NotebookResult)
    (s : NBState) (h : runNotebook w = .ok (res, s)) :
    ∃ rest,
      s.trace = Event.instantiate_llm llm0 :: Event.set_global ctx0 :: rest ∧
      (∀ c, Event.set_global c ∉ rest) ∧
      s.global_service_context = some ctx0 ∧
      res.service_context = ctx0 ∧
      (∀ ev ∈ s.trace, ∀ idx, ev = Event.build_index idx →
        idx.service_context = ctx0) ∧
      (∀ ev ∈ s.trace, ∀ e q, ev = Event.engine_query e q →
        e.index.service_context = ctx0) ∧
      res.s_engine.service_context = ctx0 := by
  obtain ⟨-, -, -, -, -, h4, h5, h6, h7, h8, -, -, htools, hseng, hglob, d3,
    d4, htr, -, -, -, -, -, hd3, hd4⟩ := run_ok_spec w res s h
  refine ⟨(mainTrace res).drop 2 ++ d3 ++ d4, ?_, ?_, hglob, h4, ?_, ?_,
    by rw [hseng]⟩
  · rw [htr]; simp [mainTrace]
  · intro c hc
    rcases List.mem_append.mp hc with hc | hc4
    · rcases List.mem_append.mp hc with hc2 | hc3
      · simp [mainTrace] at hc2
      · rcases hd3 _ hc3 with ⟨q, hq⟩ | ⟨t, -, sq, hq⟩ <;> simp at hq
    · rcases hd4 _ hc4 with ⟨q, hq⟩ | ⟨t, -, sq, hq⟩ <;> simp at hq
  · intro ev hev idx hevidx
    rw [htr] at hev
    rcases List.mem_append.mp hev with hev | hev4
    · rcases List.mem_append.mp hev with hev1 | hev3
      · rcases mainTrace_events res ev hev1 with
          rfl|rfl|rfl|rfl|rfl|rfl|rfl|rfl|rfl|rfl|rfl <;>
          first
          | exact Event.noConfusion hevidx
          | (injection hevidx with h2; rw [← h2])
      · rcases hd3 _ hev3 with ⟨q, rfl⟩ | ⟨t, -, sq, rfl⟩ <;>
          exact Event.noConfusion hevidx
    · rcases hd4 _ hev4 with ⟨q, rfl⟩ | ⟨t, -, sq, rfl⟩ <;>
        exact Event.noConfusion hevidx
  · intro ev hev e q hevq
    rw [htr] at hev
    rcases List.mem_append.mp hev with hev | hev4
    · rcases List.mem_append.mp hev with hev1 | hev3
      · rcases mainTrace_events res ev hev1 with
          rfl|rfl|rfl|rfl|rfl|rfl|rfl|rfl|rfl|rfl|rfl <;>
          first
          | exact Event.noConfusion hevq
          | (injection hevq with h2 h3; rw [← h2])
      · rcases hd3 _ hev3 with ⟨qq, rfl⟩ | ⟨t, ht, sq, rfl⟩
        · exact Event.noConfusion hevq
        · injection hevq with h2 h3
          rw [← h2]
          rw [htools] at ht
          rcases List.mem_cons.mp ht with rfl | ht
          · rw [h7, h5]
          · rcases List.mem_cons.mp ht with rfl | ht
            · rw [h8, h6]
            · simp at ht
    · rcases hd4 _ hev4 with ⟨qq, rfl⟩ | ⟨t, ht, sq, rfl⟩
      · exact Event.noConfusion hevq
      · injection hevq with h2 h3
        rw [← h2]
        rw [htools] at ht
        rcases List.mem_cons.mp ht with rfl | ht
        · rw [h7, h5]
        · rcases List.mem_cons.mp ht with rfl | ht
          · rw [h8, h6]
          · simp at ht

/-- Witness for C3 at the demo world. -/
theorem c3_global_service_context_witness :
    ∃ rest,
      demoState.trace =
        Event.instantiate_llm llm0 :: Event.set_global ctx0 :: rest ∧
      (∀ c, Event.set_global c ∉ rest) ∧
      demoState.global_service_context = some ctx0 ∧
      demoRes.service_context = ctx0 ∧
      (∀ ev ∈ demoState.trace, ∀ idx, ev = Event.build_index idx →
        idx.service_context = ctx0) ∧
      (∀ ev ∈ demoState.trace, ∀ e q, ev = Event.engine_query e q →
        e.index.service_context = ctx0) ∧
      demoRes.s_engine.service_context = ctx0 :=
  c3_global_service_context demoWorld demoRes demoState rfl

/-- Does the first list stand at the head of the second one. -/
def leadsList : List Char → List Char → Bool
  | [], _ => true
  | _ :: _, [] => false
  | a :: as, b :: bs => a == b && leadsList as bs

/-- Does the first list occur contiguously anywhere inside the second. -/
def occursIn (pat : List Char) : List Char → Bool
  | [] => leadsList pat []
  | b :: bs => leadsList pat (b :: bs) || occursIn pat bs

/-- The first string occurs as a contiguous substring of the second. -/
abbrev containsSub (pat s : String) : Prop := occursIn pat.data s.data = true

set_option maxHeartbeats 2000000 in
/-- C4: on the recorded interaction the queries return strings containing
the expected monetary figures, and the outcome is externally dependent:
two worlds returning the same documents can make the same run produce
different response strings. -/
theorem c4_nondeterministic_outcome :
    (∃ res s, runNotebook recordedWorld = .ok (res, s) ∧
      containsSub ("$3,208.3") res.lyft_response ∧
      containsSub ("$17,455") res.uber_response) ∧
    (∃ w1 w2 res1 s1 res2 s2,
      w1.load = w2.load ∧
      runNotebook w1 = .ok (res1, s1) ∧
      runNotebook w2 = .ok (res2, s2) ∧
      res1.lyft_response ≠ res2.lyft_response) := by
  constructor
  · exact ⟨_, _, rfl, by decide, by decide⟩
  · exact ⟨recordedWorld,
      { recordedWorld with
        complete := fun _ _ _ _ => .ok ("Lyft revenue was 3208 million dollars") },
      _, _, _, _, rfl, rfl, rfl, by decide⟩

/-- C5: exactly one query engine is constructed over each of the two
indices, and the result-count parameter similarity_top_k is 3 for both. -/
theorem c5_one_engine_per_index (w : World) (res : NotebookResult)
    (s : NBState) (h : runNotebook w = .ok (res, s)) :
    s.trace.filterMap makeEngineOf = [⟨res.lyft_index, 3⟩, ⟨res.uber_index, 3⟩] ∧
    res.lyft_engine = ⟨res.lyft_index, 3⟩ ∧
    res.uber_engine = ⟨res.uber_index, 3⟩ ∧
    res.lyft_engine.similarity_top_k = 3 ∧
    res.uber_engine.similarity_top_k = 3 := by
  obtain ⟨-, -, -, -, -, -, h5, h6, h7, h8, -, -, -, -, -, d3, d4, htr, -, -,
    -, -, -, hd3, hd4⟩ := run_ok_spec w res s h
  have hnone : ∀ ev, subEvent res ev → makeEngineOf ev = none :=
    fun ev hsub => (subEvent_extractors hsub).1
  refine ⟨?_, h7, h8, by rw [h7], by rw [h8]⟩
  rw [htr, List.filterMap_append, List.filterMap_append,
    filterMap_eq_nil_of_subEvent hd3 _ hnone,
    filterMap_eq_nil_of_subEvent hd4 _ hnone]
  simp [mainTrace, makeEngineOf, h5, h6]

/-- Witness for C5 at the demo world. -/
theorem c5_one_engine_per_index_witness :
    demoState.trace.filterMap makeEngineOf =
      [⟨demoRes.lyft_index, 3⟩, ⟨demoRes.uber_index, 3⟩] ∧
    demoRes.lyft_engine = ⟨demoRes.lyft_index, 3⟩ ∧
    demoRes.uber_engine = ⟨demoRes.uber_index, 3⟩ ∧
    demoRes.lyft_engine.similarity_top_k = 3 ∧
    demoRes.uber_engine.similarity_top_k = 3 :=
  c5_one_engine_per_index demoWorld demoRes demoState rfl

/-- C6: exactly one LLM client is instantiated, with model name
gpt-3.5-turbo-instruct, temperature 0 and max_tokens -1, and that very
client is the one inside the shared configuration installed globally. -/
theorem c6_single_llm_client (w : World) (res : NotebookResult)
    (s : NBState) (h : runNotebook w = .ok (res, s)) :
    s.trace.filterMap llmOf = [llm0] ∧
    res.llm = llm0 ∧
    llm0.model_name = "gpt-3.5-turbo-instruct" ∧
    llm0.temperature = 0 ∧
    llm0.max_tokens = -1 ∧
    res.service_context = ServiceContext.from_defaults res.llm ∧
    s.global_service_context = some res.service_context := by
  obtain ⟨-, -, -, -, h3, h4, -, -, -, -, -, -, -, -, hglob, d3, d4, htr, -,
    -, -, -, -, hd3, hd4⟩ := run_ok_spec w res s h
  have hnone : ∀ ev, subEvent res ev → llmOf ev = none :=
    fun ev hsub => (subEvent_extractors hsub).2.2.1
  refine ⟨?_, h3, rfl, rfl, rfl, ?_, ?_⟩
  · rw [htr, List.filterMap_append, List.filterMap_append,
      filterMap_eq_nil_of_subEvent hd3 _ hnone,
      filterMap_eq_nil_of_subEvent hd4 _ hnone]
    simp [mainTrace, llmOf]
  · rw [h4, h3]; rfl
  · rw [hglob, h4]

/-- Witness for C6 at the demo world. -/
theorem c6_single_llm_client_witness :
    demoState.trace.filterMap llmOf = [llm0] ∧
    demoRes.llm = llm0 ∧
    llm0.model_name = "gpt-3.5-turbo-instruct" ∧
    llm0.temperature = 0 ∧
    llm0.max_tokens = -1 ∧
    demoRes.service_context = ServiceContext.from_defaults demoRes.llm ∧
    demoState.global_service_context = some demoRes.service_context :=
  c6_single_llm_client demoWorld demoRes demoState rfl

/-- C7: the notebook issues exactly two load operations, each on a single
explicitly named PDF file, and each loaded document list is, unmodified,
the sole input of the corresponding index build. -/
theorem c7_two_loads (w : World) (res : NotebookResult) (s : NBState)
    (h : runNotebook w = .ok (res, s)) :
    s.trace.filterMap loadOf = [[lyft_pdf], [uber_pdf]] ∧
    w.load lyft_pdf = .ok res.lyft_docs ∧
    w.load uber_pdf = .ok res.uber_docs ∧
    res.lyft_index = ⟨res.lyft_docs, ctx0⟩ ∧
    res.uber_index = ⟨res.uber_docs, ctx0⟩ ∧
    s.trace.filterMap buildIndexOf = [res.lyft_index, res.uber_index] := by
  obtain ⟨h1, h2, -, -, -, -, h5, h6, -, -, -, -, -, -, -, d3, d4, htr, -, -,
    -, -, -, hd3, hd4⟩ := run_ok_spec w res s h
  have hl : ∀ ev, subEvent res ev → loadOf ev = none :=
    fun ev hsub => (subEvent_extractors hsub).2.1
  have hb : ∀ ev, subEvent res ev → buildIndexOf ev = none :=
    fun ev hsub => (subEvent_extractors hsub).2.2.2.2
  refine ⟨?_, h1, h2, h5, h6, ?_⟩
  · rw [htr, List.filterMap_append, List.filterMap_append,
      filterMap_eq_nil_of_subEvent hd3 _ hl,
      filterMap_eq_nil_of_subEvent hd4 _ hl]
    simp [mainTrace, loadOf]
  · rw [htr, List.filterMap_append, List.filterMap_append,
      filterMap_eq_nil_of_subEvent hd3 _ hb,
      filterMap_eq_nil_of_subEvent hd4 _ hb]
    simp [mainTrace, buildIndexOf, h5, h6]

/-- Witness for C7 at the demo world. -/
theorem c7_two_loads_witness :
    demoState.trace.filterMap loadOf = [[lyft_pdf], [uber_pdf]] ∧
    demoWorld.load lyft_pdf = .ok demoRes.lyft_docs ∧
    demoWorld.load uber_pdf = .ok demoRes.uber_docs ∧
    demoRes.lyft_index = ⟨demoRes.lyft_docs, ctx0⟩ ∧
    demoRes.uber_index = ⟨demoRes.uber_docs, ctx0⟩ ∧
    demoState.trace.filterMap buildIndexOf =
      [demoRes.lyft_index, demoRes.uber_index] :=
  c7_two_loads demoWorld demoRes demoState rfl

/-- C8: the four queries of the notebook are issued strictly one after
another: each one starts from exactly the state in which the previous one
finished and is resolved to its response before the next one starts, and
the final state is the result of the last query. -/
theorem c8_sequential_awaited_queries (w : World) (res : NotebookResult)
    (s : NBState) (h : runNotebook w = .ok (res, s)) :
    ∃ d3 d4,
      s = ⟨some ctx0, mainTrace res ++ d3 ++ d4⟩ ∧
      QueryEngine.aquery w res.lyft_engine q_lyft_revenue
          ⟨some ctx0, (mainTrace res).take 8⟩ =
        .ok (res.lyft_response, ⟨some ctx0, (mainTrace res).take 9⟩) ∧
      QueryEngine.aquery w res.uber_engine q_uber_revenue
          ⟨some ctx0, (mainTrace res).take 9⟩ =
        .ok (res.uber_response, ⟨some ctx0, (mainTrace res).take 10⟩) ∧
      SubQuestionQueryEngine.aquery w res.s_engine q_compare_segments
          ⟨some ctx0, mainTrace res⟩ =
        .ok (res.compare_response, ⟨some ctx0, mainTrace res ++ d3⟩) ∧
      SubQuestionQueryEngine.aquery w res.s_engine q_compare_growth
          ⟨some ctx0, mainTrace res ++ d3⟩ =
        .ok (res.growth_response, ⟨some ctx0, mainTrace res ++ d3 ++ d4⟩) := by
  obtain ⟨-, -, -, -, -, -, h5, h6, h7, h8, hc1, hc2, -, -, -, d3, d4, -,
    hseq, hq3, hq4, -, -, -, -⟩ := run_ok_spec w res s h
  refine ⟨d3, d4, hseq, ?_, ?_, hq3, hq4⟩
  · unfold QueryEngine.aquery
    rw [h7, h5]
    simp only []
    rw [hc1]
    simp [mainTrace]
  · unfold QueryEngine.aquery
    rw [h8, h6]
    simp only []
    rw [hc2]
    simp [mainTrace]

/-- Witness for C8 at the demo world. -/
theorem c8_sequential_awaited_queries_witness :
    ∃ d3 d4,
      demoState = ⟨some ctx0, mainTrace demoRes ++ d3 ++ d4⟩ ∧
      QueryEngine.aquery demoWorld demoRes.lyft_engine q_lyft_revenue
          ⟨some ctx0, (mainTrace demoRes).take 8⟩ =
        .ok (demoRes.lyft_response, ⟨some ctx0, (mainTrace demoRes).take 9⟩) ∧
      QueryEngine.aquery demoWorld demoRes.uber_engine q_uber_revenue
          ⟨some ctx0, (mainTrace demoRes).take 9⟩ =
        .ok (demoRes.uber_response, ⟨some ctx0, (mainTrace demoRes).take 10⟩) ∧
      SubQuestionQueryEngine.aquery demoWorld demoRes.s_engine
          q_compare_segments ⟨some ctx0, mainTrace demoRes⟩ =
        .ok (demoRes.compare_response,
          ⟨some ctx0, mainTrace demoRes ++ d3⟩) ∧
      SubQuestionQueryEngine.aquery demoWorld demoRes.s_engine
          q_compare_growth ⟨some ctx0, mainTrace demoRes ++ d3⟩ =
        .ok (demoRes.growth_response,
          ⟨some ctx0, mainTrace demoRes ++ d3 ++ d4⟩) :=
  c8_sequential_awaited_queries demoWorld demoRes demoState rfl

/-- C9: the sub-question engine is composed of exactly two tools with
distinct non-empty names lyft_10k and uber_10k, each wrapping the very
query engine used for simple QA, and every query event of the whole run,
sub-questions included, ran on an engine with similarity_top_k 3. -/
theorem c9_tools_invariant (w : World) (res : NotebookResult) (s : NBState)
    (h : runNotebook w = .ok (res, s)) :
    res.s_engine.query_engine_tools =
      [⟨res.lyft_engine, ⟨"lyft_10k", lyft_tool_description⟩⟩,
       ⟨res.uber_engine, ⟨"uber_10k", uber_tool_description⟩⟩] ∧
    (res.s_engine.query_engine_tools.map (fun t => t.metadata.name)).Nodup ∧
    (∀ n ∈ res.s_engine.query_engine_tools.map (fun t => t.metadata.name),
      n ≠ "") ∧
    (∀ t ∈ res.s_engine.query_engine_tools,
      (t.query_engine = res.lyft_engine ∨ t.query_engine = res.uber_engine) ∧
      t.query_engine.similarity_top_k = 3) ∧
    (∀ ev ∈ s.trace, ∀ e q, ev = Event.engine_query e q →
      e.similarity_top_k = 3) := by
  obtain ⟨-, -, -, -, -, -, h5, h6, h7, h8, -, -, htools, hseng, -, d3, d4,
    htr, -, -, -, -, -, hd3, hd4⟩ := run_ok_spec w res s h
  have htl : res.s_engine.query_engine_tools =
      [⟨res.lyft_engine, ⟨"lyft_10k", lyft_tool_description⟩⟩,
       ⟨res.uber_engine, ⟨"uber_10k", uber_tool_description⟩⟩] := by
    rw [hseng]; exact htools
  refine ⟨htl, ?_, ?_, ?_, ?_⟩
  · rw [htl]; simp
  · rw [htl]; intro n hn; simp at hn
    rcases hn with rfl | rfl <;> simp
  · rw [htl]
    intro t ht
    rcases List.mem_cons.mp ht with rfl | ht
    · exact ⟨Or.inl rfl, by rw [h7]⟩
    · rcases List.mem_cons.mp ht with rfl | ht
      · exact ⟨Or.inr rfl, by rw [h8]⟩
      · simp at ht
  · intro ev hev e q hevq
    rw [htr] at hev
    rcases List.mem_append.mp hev with hev | hev4
    · rcases List.mem_append.mp hev with hev1 | hev3
      · rcases mainTrace_events res ev hev1 with
          rfl|rfl|rfl|rfl|rfl|rfl|rfl|rfl|rfl|rfl|rfl <;>
          first
          | exact Event.noConfusion hevq
          | (injection hevq with hq1 hq2; rw [← hq1])
      · rcases hd3 _ hev3 with ⟨qq, rfl⟩ | ⟨t, ht, sq, rfl⟩
        · exact Event.noConfusion hevq
        · injection hevq with hq1 hq2
          rw [← hq1]
          rw [htools] at ht
          rcases List.mem_cons.mp ht with rfl | ht
          · rw [h7]
          · rcases List.mem_cons.mp ht with rfl | ht
            · rw [h8]
            · simp at ht
    · rcases hd4 _ hev4 with ⟨qq, rfl⟩ | ⟨t, ht, sq, rfl⟩
      · exact Event.noConfusion hevq
      · injection hevq with hq1 hq2
        rw [← hq1]
        rw [htools] at ht
        rcases List.mem_cons.mp ht with rfl | ht
        · rw [h7]
        · rcases List.mem_cons.mp ht with rfl | ht
          · rw [h8]
          · simp at ht

/-- Witness for C9 at the demo world. -/
theorem c9_tools_invariant_witness :
    demoRes.s_engine.query_engine_tools =
      [⟨demoRes.lyft_engine, ⟨"lyft_10k", lyft_tool_description⟩⟩,
       ⟨demoRes.uber_engine, ⟨"uber_10k", uber_tool_description⟩⟩] ∧
    (demoRes.s_engine.query_engine_tools.map (fun t => t.metadata.name)).Nodup ∧
    (∀ n ∈ demoRes.s_engine.query_engine_tools.map (fun t => t.metadata.name),
      n ≠ "") ∧
    (∀ t ∈ demoRes.s_engine.query_engine_tools,
      (t.query_engine = demoRes.lyft_engine ∨
        t.query_engine = demoRes.uber_engine) ∧
      t.query_engine.similarity_top_k = 3) ∧
    (∀ ev ∈ demoState.trace, ∀ e q, ev = Event.engine_query e q →
      e.similarity_top_k = 3) :=
  c9_tools_invariant demoWorld demoRes demoState rfl

/-- C10: the two per-document pipelines do not interfere: across any two
external worlds with the same completion behaviour, if the Lyft loads
agree then the Lyft responses agree, whatever the Uber documents are, and
symmetrically for Uber. -/
theorem c10_noninterference (w1 w2 : World) (res1 : NotebookResult)
    (s1 : NBState) (res2 : NotebookResult) (s2 : NBState)
    (hcomp : w1.complete = w2.complete)
    (h1 : runNotebook w1 = .ok (res1, s1))
    (h2 : runNotebook w2 = .ok (res2, s2)) :
    (w1.load lyft_pdf = w2.load lyft_pdf →
      res1.lyft_response = res2.lyft_response) ∧
    (w1.load uber_pdf = w2.load uber_pdf →
      res1.uber_response = res2.uber_response) := by
  obtain ⟨ha1, ha2, -, -, -, -, -, -, -, -, hca1, hca2, -, -, -, -, -, -, -,
    -, -, -, -, -, -⟩ := run_ok_spec w1 res1 s1 h1
  obtain ⟨hb1, hb2, -, -, -, -, -, -, -, -, hcb1, hcb2, -, -, -, -, -, -, -,
    -, -, -, -, -, -⟩ := run_ok_spec w2 res2 s2 h2
  constructor
  · intro hload
    have hdocs : res1.lyft_docs = res2.lyft_docs := by
      have hh := ha1.symm.trans (hload.trans hb1)
      simpa using hh
    rw [hcomp, hdocs] at hca1
    simpa using hca1.symm.trans hcb1
  · intro hload
    have hdocs : res1.uber_docs = res2.uber_docs := by
      have hh := ha2.symm.trans (hload.trans hb2)
      simpa using hh
    rw [hcomp, hdocs] at hca2
    simpa using hca2.symm.trans hcb2

/-- Documents the alternative world returns for the Uber PDF. -/
def alt_uber_docs : List Document := [⟨"other uber page"⟩]

/-- The Uber query engine the notebook builds in the alternative world. -/
def alt_uber_engine : QueryEngine := ⟨⟨alt_uber_docs, ctx0⟩, 3⟩

/-- The tool list the notebook builds in the alternative world. -/
def alt_tools : List QueryEngineTool :=
  [⟨demo_lyft_engine, ⟨"lyft_10k", lyft_tool_description⟩⟩,
   ⟨alt_uber_engine, ⟨"uber_10k", uber_tool_description⟩⟩]

/-- The full result of running the notebook in the alternative world. -/
def altRes : NotebookResult :=
  ⟨llm0, ctx0, demo_lyft_docs, alt_uber_docs,
   ⟨demo_lyft_docs, ctx0⟩, ⟨alt_uber_docs, ctx0⟩,
   demo_lyft_engine, alt_uber_engine, alt_tools, ⟨alt_tools, ctx0⟩,
   "What is the revenue of Lyft in 2021? Answer in millions with page reference lyft page",
   "What is the revenue of Uber in 2021? Answer in millions, with page reference other uber page",
   "Compare and contrast the customer segments and geographies that grew the fastest lyft page; Compare and contrast the customer segments and geographies that grew the fastest other uber page",
   "Compare revenue growth of Uber and Lyft from 2020 to 2021 lyft page; Compare revenue growth of Uber and Lyft from 2020 to 2021 other uber page"⟩

/-- Trace of the first sub-question query in the alternative world. -/
def altD3 : List Event :=
  [.sub_query tool_names0 q_compare_segments,
   .engine_query demo_lyft_engine q_compare_segments,
   .engine_query alt_uber_engine q_compare_segments]

/-- Trace of the second sub-question query in the alternative world. -/
def altD4 : List Event :=
  [.sub_query tool_names0 q_compare_growth,
   .engine_query demo_lyft_engine q_compare_growth,
   .engine_query alt_uber_engine q_compare_growth]

/-- Final state of the notebook in the alternative world. -/
def altState : NBState := ⟨some ctx0, mainTrace altRes ++ altD3 ++ altD4⟩

/-- Witness for C10: replacing the Uber documents leaves the Lyft
response unchanged, and with both worlds equal the Uber responses agree. -/
theorem c10_noninterference_witness :
    demoRes.lyft_response = altRes.lyft_response ∧
    demoRes.uber_response = demoRes.uber_response :=
  ⟨(c10_noninterference demoWorld altWorld demoRes demoState altRes altState
      rfl rfl rfl).1 rfl,
   (c10_noninterference demoWorld demoWorld demoRes demoState demoRes
      demoState rfl rfl rfl).2 rfl⟩

end FinDoc

namespace FinDoc

/-- C1: the notebook performs, in order, exactly the pipeline: load the
two PDFs, build one vector index per document, derive one simple query
engine per index, and compose the two engines into one sub-question
engine; the only further events are the sub-question executions. -/
theorem c1_pipeline (w : World) (res : NotebookResult) (s : NBState)
    (h : runNotebook w = .ok (res, s)) :
    ∃ d3 d4,
      s.trace = mainTrace res ++ d3 ++ d4 ∧
      (∀ ev ∈ d3 ++ d4, subEvent res ev) ∧
      res.lyft_index = ⟨res.lyft_docs, ctx0⟩ ∧
      res.uber_index = ⟨res.uber_docs, ctx0⟩ ∧
      res.lyft_engine = ⟨res.lyft_index, 3⟩ ∧
      res.uber_engine = ⟨res.uber_index, 3⟩ ∧
      res.query_engine_tools =
        [⟨res.lyft_engine, ⟨"lyft_10k", lyft_tool_description⟩⟩,
         ⟨res.uber_engine, ⟨"uber_10k", uber_tool_description⟩⟩] ∧
      res.s_engine = ⟨res.query_engine_tools, ctx0⟩ := by
  obtain ⟨-, -, -, -, -, -, h5, h6, h7, h8, -, -, htools, hseng, -, d3, d4,
    htr, -, -, -, -, -, hd3, hd4⟩ := run_ok_spec w res s h
  exact ⟨d3, d4, htr,
    fun ev hev => (List.mem_append.mp hev).elim (hd3 ev) (hd4 ev),
    h5, h6, h7, h8, htools, hseng⟩

/-- Witness for C1: the pipeline shape at the demo world. -/
theorem c1_pipeline_witness :
    ∃ d3 d4,
      demoState.trace = mainTrace demoRes ++ d3 ++ d4 ∧
      (∀ ev ∈ d3 ++ d4, subEvent demoRes ev) ∧
      demoRes.lyft_index = ⟨demoRes.lyft_docs, ctx0⟩ ∧
      demoRes.uber_index = ⟨demoRes.uber_docs, ctx0⟩ ∧
      demoRes.lyft_engine = ⟨demoRes.lyft_index, 3⟩ ∧
      demoRes.uber_engine = ⟨demoRes.uber_index, 3⟩ ∧
      demoRes.query_engine_tools =
        [⟨demoRes.lyft_engine, ⟨"lyft_10k", lyft_tool_description⟩⟩,
         ⟨demoRes.uber_engine, ⟨"uber_10k", uber_tool_description⟩⟩] ∧
      demoRes.s_engine = ⟨demoRes.query_engine_tools, ctx0⟩ :=
  c1_pipeline demoWorld demoRes demoState rfl

end FinDoc
